import Mathlib

/-!
Verification of the budget recommender backend (src/backend/backend.py).

The service is a thin adapter over a serialized model bundle:
at startup it deserializes an artifact into a model, optional label
encoders, and a feature-column order; per request it resolves the two
categorical encodings (via encoders, or pass-through integers), assembles
a single-row feature table, reorders it per `feature_order`, and returns
the model output as an integer flag.

Modelling choices:
* Python floats that are only carried (never computed on) are embedded as
  `Rat`; the backend performs no arithmetic on them.
* The external sklearn model is opaque; `model.predict(X)[0]` followed by
  `int(...)` is embedded as a function `List Rat → Int` from the row
  values, in feature-order, to the (already integral) class label.
* A sklearn `LabelEncoder.transform` on a single label either yields an
  integer code or raises `ValueError` on an unseen label; it is embedded
  as `String → Option Int` where `none` is the raised error.
* The `encoders` dict is an association list; indexing a missing key is a
  `KeyError`, i.e. an unhandled server-side failure.
* `HTTPException(status_code=400, detail=...)` is a client error carrying
  its detail string; any unhandled Python exception is a server error.
* `pd.DataFrame([row])[feature_order]` selects the named columns in the
  given order and raises `KeyError` when a requested column is absent
  from the row; extra row columns are silently dropped.
-/

/-- Outcome of a request handler: a successful JSON response, an
`HTTPException` with status 400 and a detail message (client error), or an
unhandled exception surfacing as a server-side failure. -/
inductive Resp (α : Type) where
  | ok (v : α)
  | clientError (detail : String)
  | serverError (msg : String)
deriving DecidableEq, Repr

/-- The opaque trained model: maps the feature-row values (in the order of
the selected columns) to the integer class label `int(model.predict(X)[0])`. -/
abbrev Model : Type := List Rat → Int

/-- A label encoder: `transform` on one label yields its integer code, or
fails (ValueError) on a label outside the trained vocabulary. -/
abbrev Encoder : Type := String → Option Int

/-- The bundle `encoders` mapping: categorical field name to its encoder. -/
abbrev Encoders : Type := List (String × Encoder)

/-- Request schema `ExpenseInput` from backend.py: required floats, the
optional categorical strings, the optional currency, the optional integer
encodings, and the required integer risk flag. -/
structure ExpenseInput where
  income_x : Rat
  income_y : Rat
  expense_amount : Rat
  category : Option String
  priority_flag : Option String
  currency : Option String
  category_enc : Option Int
  priority_enc : Option Int
  cutoff_rate : Rat
  total_expenses : Rat
  expense_ratio : Rat
  risk_flag : Int

/-- The hard-coded default feature order of backend.py. -/
def DEFAULT_FEATURE_ORDER : List String :=
  ["income_x", "income_y", "expense_amount",
   "category_enc", "priority_enc", "cutoff_rate",
   "total_expenses", "expense_ratio", "risk_flag"]

/-- The process-wide state extracted from the loaded artifact. -/
structure Bundle where
  model : Model
  encoders : Option Encoders
  feature_order : List String

/-- The `row` dict built in `predict`: nine named values, in the dict
insertion order of the source. -/
def assembleRow (e : ExpenseInput) (category_enc priority_enc : Int) :
    List (String × Rat) :=
  [("income_x", e.income_x),
   ("income_y", e.income_y),
   ("expense_amount", e.expense_amount),
   ("category_enc", (category_enc : Rat)),
   ("priority_enc", (priority_enc : Rat)),
   ("cutoff_rate", e.cutoff_rate),
   ("total_expenses", e.total_expenses),
   ("expense_ratio", e.expense_ratio),
   ("risk_flag", (e.risk_flag : Rat))]

/-- `pd.DataFrame([row])[order]`: select the columns named in `order`, in
that order; `none` models the KeyError raised when a requested column is
missing from the row. -/
def selectColumns (row : List (String × Rat)) :
    List String → Option (List (String × Rat))
  | [] => some []
  | c :: rest =>
      match List.lookup c row with
      | none => none
      | some v =>
          match selectColumns row rest with
          | none => none
          | some X => some ((c, v) :: X)

/-- The tail of `predict` after the encodings are resolved: assemble the
row, select per `feature_order`, invoke the model, return the flag. -/
def runModel (b : Bundle) (e : ExpenseInput) (ce pe : Int) : Resp Int :=
  match selectColumns (assembleRow e ce pe) b.feature_order with
  | none => .serverError "KeyError: feature_order names a missing column"
  | some X => .ok (b.model (X.map Prod.snd))

/-- The `POST /predict` handler of backend.py. -/
def predict (b : Bundle) (e : ExpenseInput) : Resp Int :=
  match b.encoders with
  | some encs =>
      match e.category, e.priority_flag with
      | some cat, some pf =>
          match encs.lookup "category" with
          | none => .serverError "KeyError: category"
          | some f =>
              match f cat with
              | none => .serverError "ValueError: unseen category label"
              | some ce =>
                  match encs.lookup "priority_flag" with
                  | none => .serverError "KeyError: priority_flag"
                  | some g =>
                      match g pf with
                      | none => .serverError "ValueError: unseen priority_flag label"
                      | some pe => runModel b e ce pe
      | _, _ =>
          .clientError "Provide category and priority_flag as strings."
  | none =>
      match e.category_enc, e.priority_enc with
      | some ce, some pe => runModel b e ce pe
      | _, _ =>
          .clientError "Model bundle has no encoders. Provide numeric category_enc and priority_enc, or re-export a bundle with encoders."

/-! ### The request body as a JSON object

Pydantic populates `ExpenseInput` by field name from the JSON object; the
textual order of the keys in the body is irrelevant. We model the body as
an association list of keys to JSON values and the schema validation as a
lookup-by-name parse. -/

/-- A JSON value as far as this schema needs: a number or a string. -/
inductive JValue where
  | num (q : Rat)
  | str (s : String)
deriving DecidableEq, Repr

/-- A JSON object body: keys paired with values. -/
abbrev JObject : Type := List (String × JValue)

/-- Coerce a JSON value to a float field. -/
def JValue.asFloat : JValue → Option Rat
  | .num q => some q
  | _ => none

/-- Coerce a JSON value to an int field (an integral number). -/
def JValue.asInt : JValue → Option Int
  | .num q => if q.den = 1 then some q.num else none
  | _ => none

/-- Coerce a JSON value to a string field. -/
def JValue.asStr : JValue → Option String
  | .str s => some s
  | _ => none

/-- A required float field: absent or non-numeric fails validation. -/
def reqFloat (o : JObject) (k : String) : Option Rat :=
  (List.lookup k o).bind JValue.asFloat

/-- A required int field. -/
def reqInt (o : JObject) (k : String) : Option Int :=
  (List.lookup k o).bind JValue.asInt

/-- An optional string field: absent yields `none`, present must be a
string. -/
def optStr (o : JObject) (k : String) : Option (Option String) :=
  match List.lookup k o with
  | none => some none
  | some v => v.asStr.map some

/-- An optional int field. -/
def optInt (o : JObject) (k : String) : Option (Option Int) :=
  match List.lookup k o with
  | none => some none
  | some v => v.asInt.map some

/-- Schema validation of a JSON body into an `ExpenseInput`, by field
name; `none` is the validation failure rejected before the handler runs. -/
def parseExpense (o : JObject) : Option ExpenseInput := do
  let ix ← reqFloat o "income_x"
  let iy ← reqFloat o "income_y"
  let ea ← reqFloat o "expense_amount"
  let cat ← optStr o "category"
  let pf ← optStr o "priority_flag"
  let cur ← optStr o "currency"
  let ce ← optInt o "category_enc"
  let pe ← optInt o "priority_enc"
  let cr ← reqFloat o "cutoff_rate"
  let te ← reqFloat o "total_expenses"
  let er ← reqFloat o "expense_ratio"
  let rf ← reqInt o "risk_flag"
  pure { income_x := ix, income_y := iy, expense_amount := ea,
         category := cat, priority_flag := pf, currency := cur,
         category_enc := ce, priority_enc := pe,
         cutoff_rate := cr, total_expenses := te,
         expense_ratio := er, risk_flag := rf }

/-! ### The bundle loader

`joblib.load` yields either a dict (queried only at the keys `model`,
`encoders`, `feature_order`, each possibly absent) or a bare estimator. -/

/-- A structured artifact: the three keys `dict.get` is applied to, each
optional. -/
structure LoadedBundleDict where
  model : Option Model
  encoders : Option Encoders
  feature_order : Option (List String)

/-- The deserialized artifact: a dict or a bare estimator. -/
inductive LoadedArtifact where
  | dict (d : LoadedBundleDict)
  | bare (m : Model)

/-- The startup extraction of backend.py: the module-level
`(model, encoders, feature_order)` triple from the loaded artifact. -/
def interpretArtifact : LoadedArtifact → Option Model × Option Encoders × List String
  | .dict d => (d.model, d.encoders, d.feature_order.getD DEFAULT_FEATURE_ORDER)
  | .bare m => (some m, none, DEFAULT_FEATURE_ORDER)

/-! ### Concrete instances

Small concrete bundles and requests used to evaluate the definitions on
closed inputs. -/

/-- A constant model returning class 1. -/
def wModelOne : Model := fun _ => 1

/-- Encoders of the spec scenario: category maps Food to 2, priority_flag
maps High to 1; any other label is outside the vocabulary. -/
def demoEncoders : Encoders :=
  [("category", fun s => if s = "Food" then some 2 else none),
   ("priority_flag", fun s => if s = "High" then some 1 else none)]

/-- The concrete request of the spec scenario, with category and
priority_flag given as strings. -/
def demoRequest : ExpenseInput :=
  { income_x := 5000, income_y := 2000, expense_amount := 300,
    category := some "Food", priority_flag := some "High",
    currency := none, category_enc := none, priority_enc := none,
    cutoff_rate := 3/10, total_expenses := 1200,
    expense_ratio := 24/100, risk_flag := 0 }

/-- The same numeric fields with the categorical values supplied as
pre-encoded integers instead of strings. -/
def codesRequest : ExpenseInput :=
  { income_x := 5000, income_y := 2000, expense_amount := 300,
    category := none, priority_flag := none,
    currency := none, category_enc := some 2, priority_enc := some 1,
    cutoff_rate := 3/10, total_expenses := 1200,
    expense_ratio := 24/100, risk_flag := 0 }

/-- The spec scenario as a JSON body, keys in one textual order. -/
def demoBody : JObject :=
  [("income_x", .num 5000), ("income_y", .num 2000),
   ("expense_amount", .num 300), ("category", .str "Food"),
   ("priority_flag", .str "High"), ("cutoff_rate", .num (3/10)),
   ("total_expenses", .num 1200), ("expense_ratio", .num (24/100)),
   ("risk_flag", .num 0)]

/-- The same body with its first two keys transposed. -/
def demoBodySwapped : JObject :=
  [("income_y", .num 2000), ("income_x", .num 5000),
   ("expense_amount", .num 300), ("category", .str "Food"),
   ("priority_flag", .str "High"), ("cutoff_rate", .num (3/10)),
   ("total_expenses", .num 1200), ("expense_ratio", .num (24/100)),
   ("risk_flag", .num 0)]

/-! ### Helper lemmas -/

/-- Association-list lookup is invariant under permutation when the keys
are duplicate-free. -/
theorem lookup_eq_of_perm {α β : Type} [BEq α] [LawfulBEq α] :
    ∀ {l₁ l₂ : List (α × β)}, l₁.Perm l₂ → (l₁.map Prod.fst).Nodup →
      ∀ k, List.lookup k l₁ = List.lookup k l₂ := by
  intro l₁ l₂ h
  induction h with
  | nil => intro _ k; rfl
  | cons x h ih =>
      intro hn k
      obtain ⟨a, b⟩ := x
      simp only [List.map_cons, List.nodup_cons] at hn
      cases hb : (k == a) <;> simp only [List.lookup, hb]
      exact ih hn.2 k
  | swap x y l =>
      intro hn k
      obtain ⟨a, b⟩ := x
      obtain ⟨c, d⟩ := y
      simp only [List.map_cons, List.nodup_cons, List.mem_cons] at hn
      cases hkc : (k == c) <;> cases hka : (k == a) <;>
        simp only [List.lookup_cons, hkc, hka]
      exact absurd (eq_of_beq hka ▸ eq_of_beq hkc).symm
        (fun hca => hn.1 (Or.inl hca))
  | trans h₁ h₂ ih₁ ih₂ =>
      intro hn k
      rw [ih₁ hn k, ih₂ ((h₁.map Prod.fst).nodup hn) k]

/-- A lookup misses exactly when the key is absent from the key column. -/
theorem lookup_eq_none_key {α β : Type} [BEq α] [LawfulBEq α]
    (k : α) (l : List (α × β)) :
    List.lookup k l = none ↔ k ∉ l.map Prod.fst := by
  rw [List.lookup_eq_none_iff]
  simp only [List.mem_map, not_exists, not_and, bne_iff_ne, ne_eq]
  constructor
  · intro h p hp hpk
    exact h p hp (hpk ▸ rfl)
  · intro h p hp hkp
    exact h p hp hkp.symm

/-- Column selection keeps exactly the requested names, in order. -/
theorem selectColumns_columns (row : List (String × Rat)) :
    ∀ (order : List String) (X : List (String × Rat)),
    selectColumns row order = some X → X.map Prod.fst = order := by
  intro order
  induction order with
  | nil =>
      intro X h
      simp only [selectColumns, Option.some.injEq] at h
      simp [← h]
  | cons c rest ih =>
      intro X h
      simp only [selectColumns] at h
      cases hv : List.lookup c row with
      | none => rw [hv] at h; exact absurd h (by simp)
      | some v =>
          rw [hv] at h
          cases hX : selectColumns row rest with
          | none => rw [hX] at h; exact absurd h (by simp)
          | some X0 =>
              rw [hX] at h
              simp only [Option.some.injEq] at h
              subst h
              simp [ih X0 hX]

/-- Column selection fails exactly when some requested name is missing
from the row. -/
theorem selectColumns_eq_none_iff (row : List (String × Rat)) :
    ∀ (order : List String),
    selectColumns row order = none ↔
      ∃ c ∈ order, List.lookup c row = none := by
  intro order
  induction order with
  | nil => simp [selectColumns]
  | cons c rest ih =>
      simp only [selectColumns]
      cases hv : List.lookup c row with
      | none =>
          constructor
          · intro _
            exact ⟨c, List.mem_cons_self c rest, hv⟩
          · intro _
            rfl
      | some v =>
          cases hX : selectColumns row rest with
          | none =>
              constructor
              · intro _
                obtain ⟨d, hd, hdn⟩ := ih.mp hX
                exact ⟨d, List.mem_cons_of_mem c hd, hdn⟩
              · intro _
                rfl
          | some X0 =>
              constructor
              · intro h
                exact absurd h (by simp)
              · rintro ⟨d, hd, hdn⟩
                rcases List.mem_cons.mp hd with rfl | hd2
                · rw [hdn] at hv
                  cases hv
                · exact absurd hX (by rw [ih.mpr ⟨d, hd2, hdn⟩]; simp)

/-- The assembled row carries exactly the nine default column names, in
the default order. -/
theorem assembleRow_columns (e : ExpenseInput) (ce pe : Int) :
    (assembleRow e ce pe).map Prod.fst = DEFAULT_FEATURE_ORDER := rfl

/-- Selecting the default order from the assembled row is the identity. -/
theorem selectColumns_default (e : ExpenseInput) (ce pe : Int) :
    selectColumns (assembleRow e ce pe) DEFAULT_FEATURE_ORDER =
      some (assembleRow e ce pe) := rfl

/-! ### Claim theorems -/

/-- C1: under either mode, a missing categorical input makes `predict`
fail with the HTTP 400 client error whose detail names the required
fields, and the result is the same for every model, so the model's
prediction operation is never invoked: with encoders, a missing
`category` or `priority_flag` string; without encoders, a missing
`category_enc` or `priority_enc` integer. -/
theorem predict_missing_categorical_client_error
    (m : Model) (encs : Encoders) (fo : List String) (e : ExpenseInput) :
    ((e.category = none ∨ e.priority_flag = none) →
      predict ⟨m, some encs, fo⟩ e =
        .clientError "Provide category and priority_flag as strings.") ∧
    ((e.category_enc = none ∨ e.priority_enc = none) →
      predict ⟨m, none, fo⟩ e =
        .clientError "Model bundle has no encoders. Provide numeric category_enc and priority_enc, or re-export a bundle with encoders.") := by
  constructor
  · intro h
    rcases h with h | h
    · cases hp : e.priority_flag <;> simp [predict, h, hp]
    · cases hc : e.category <;> simp [predict, h, hc]
  · intro h
    rcases h with h | h
    · cases hp : e.priority_enc <;> simp [predict, h, hp]
    · cases hc : e.category_enc <;> simp [predict, h, hc]

/-- Witness for C1 at a concrete request missing `category` (with
encoders) and missing `category_enc` (without encoders). -/
theorem predict_missing_categorical_client_error_witness :
    predict ⟨wModelOne, some demoEncoders, DEFAULT_FEATURE_ORDER⟩
        { demoRequest with category := none } =
      .clientError "Provide category and priority_flag as strings." ∧
    predict ⟨wModelOne, none, DEFAULT_FEATURE_ORDER⟩ demoRequest =
      .clientError "Model bundle has no encoders. Provide numeric category_enc and priority_enc, or re-export a bundle with encoders." :=
  ⟨(predict_missing_categorical_client_error wModelOne demoEncoders
      DEFAULT_FEATURE_ORDER { demoRequest with category := none }).1
      (Or.inl rfl),
   (predict_missing_categorical_client_error wModelOne demoEncoders
      DEFAULT_FEATURE_ORDER demoRequest).2 (Or.inl rfl)⟩

/-- C2: the single-row feature table handed to the model has its columns
exactly in the bundle's `feature_order` sequence, and the parsed request
(hence everything downstream) is invariant under reordering the JSON keys
of the body. -/
theorem feature_columns_follow_feature_order
    (o₁ o₂ : JObject) (b : Bundle)
    (hperm : o₁.Perm o₂) (hnodup : (o₁.map Prod.fst).Nodup) :
    parseExpense o₂ = parseExpense o₁ ∧
    ∀ (e : ExpenseInput) (ce pe : Int) (X : List (String × Rat)),
      parseExpense o₁ = some e →
      selectColumns (assembleRow e ce pe) b.feature_order = some X →
      X.map Prod.fst = b.feature_order := by
  have hl : ∀ k, List.lookup k o₁ = List.lookup k o₂ :=
    lookup_eq_of_perm hperm hnodup
  constructor
  · simp only [parseExpense, reqFloat, reqInt, optStr, optInt, ← hl]
  · intro e ce pe X hparse hsel
    exact selectColumns_columns _ _ _ hsel

/-- Witness for C2: the concrete scenario body and the same body with its
first two keys transposed. -/
theorem feature_columns_follow_feature_order_witness :
    parseExpense demoBodySwapped = parseExpense demoBody ∧
    ∀ (e : ExpenseInput) (ce pe : Int) (X : List (String × Rat)),
      parseExpense demoBody = some e →
      selectColumns (assembleRow e ce pe) DEFAULT_FEATURE_ORDER = some X →
      X.map Prod.fst = DEFAULT_FEATURE_ORDER :=
  feature_columns_follow_feature_order demoBody demoBodySwapped
    ⟨wModelOne, none, DEFAULT_FEATURE_ORDER⟩
    (List.Perm.swap _ _ _) (by decide)

/-- C3: encoder-consistency law. With identical numeric fields, `predict`
against a bundle with encoders, given string labels, equals `predict`
against the same model and feature order without encoders, given the
integer codes those encoders assign to the labels. -/
theorem predict_encoder_consistency
    (m : Model) (encs : Encoders) (fo : List String) (e : ExpenseInput)
    (c p : String) (f g : Encoder) (ce pe : Int)
    (hc : e.category = some c) (hp : e.priority_flag = some p)
    (hf : List.lookup "category" encs = some f)
    (hg : List.lookup "priority_flag" encs = some g)
    (hfc : f c = some ce) (hgp : g p = some pe) :
    predict ⟨m, some encs, fo⟩ e =
      predict ⟨m, none, fo⟩
        { e with category := none, priority_flag := none,
                 category_enc := some ce, priority_enc := some pe } := by
  simp [predict, hc, hp, hf, hg, hfc, hgp, runModel, assembleRow]

/-- Witness for C3: the scenario request under the scenario encoders
against the same request given codes 2 and 1 directly. -/
theorem predict_encoder_consistency_witness :
    predict ⟨wModelOne, some demoEncoders, DEFAULT_FEATURE_ORDER⟩ demoRequest =
      predict ⟨wModelOne, none, DEFAULT_FEATURE_ORDER⟩
        { demoRequest with category := none, priority_flag := none,
                           category_enc := some 2, priority_enc := some 1 } :=
  predict_encoder_consistency wModelOne demoEncoders DEFAULT_FEATURE_ORDER
    demoRequest "Food" "High" _ _ 2 1 rfl rfl rfl rfl rfl rfl

/-- C4: with encoders present, labels known to the encoders and a
feature order satisfiable from the assembled row, `predict` of a binary
classifier returns a recommend flag in the set 0, 1. -/
theorem predict_binary_output
    (m : Model) (encs : Encoders) (fo : List String) (e : ExpenseInput)
    (c p : String) (f g : Encoder) (ce pe : Int) (X : List (String × Rat))
    (hbin : ∀ v, m v = 0 ∨ m v = 1)
    (hc : e.category = some c) (hp : e.priority_flag = some p)
    (hf : List.lookup "category" encs = some f)
    (hg : List.lookup "priority_flag" encs = some g)
    (hfc : f c = some ce) (hgp : g p = some pe)
    (hsel : selectColumns (assembleRow e ce pe) fo = some X) :
    ∃ r, predict ⟨m, some encs, fo⟩ e = .ok r ∧ (r = 0 ∨ r = 1) := by
  refine ⟨m (X.map Prod.snd), ?_, hbin _⟩
  simp [predict, hc, hp, hf, hg, hfc, hgp, runModel, hsel]

/-- Witness for C4 at the scenario bundle with the constant-1 model. -/
theorem predict_binary_output_witness :
    ∃ r, predict ⟨wModelOne, some demoEncoders, DEFAULT_FEATURE_ORDER⟩
        demoRequest = .ok r ∧ (r = 0 ∨ r = 1) :=
  predict_binary_output wModelOne demoEncoders DEFAULT_FEATURE_ORDER
    demoRequest "Food" "High" _ _ 2 1 (assembleRow demoRequest 2 1)
    (fun _ => Or.inr rfl) rfl rfl rfl rfl rfl rfl rfl

/-- C5 fails as stated: a `feature_order` that is a strict subset of the
nine assembled columns does not exactly match them — neither as a
sequence nor up to reordering — yet selection succeeds and the request
proceeds to inference instead of failing. -/
theorem feature_order_mismatch_counterexample :
    (DEFAULT_FEATURE_ORDER.take 8 ≠
       (assembleRow codesRequest 2 1).map Prod.fst ∧
     ¬ (DEFAULT_FEATURE_ORDER.take 8).Perm
         ((assembleRow codesRequest 2 1).map Prod.fst)) ∧
    predict ⟨wModelOne, none, DEFAULT_FEATURE_ORDER.take 8⟩ codesRequest =
      .ok 1 := by
  refine ⟨⟨by decide, fun h => ?_⟩, by rfl⟩
  have := h.length_eq
  simp [DEFAULT_FEATURE_ORDER, assembleRow] at this

/-- C5 amended: feature assembly fails with the propagated server-side
error exactly when `feature_order` names a column outside the nine
assembled feature-row columns; a `feature_order` drawn entirely from
those nine (any subset, reordering or repetition) proceeds to
inference. Stated in the no-encoders mode, where the encoding stage
cannot fail. -/
theorem feature_order_mismatch_amended
    (m : Model) (fo : List String) (e : ExpenseInput) (ce pe : Int)
    (hce : e.category_enc = some ce) (hpe : e.priority_enc = some pe) :
    ((∃ c ∈ fo, c ∉ DEFAULT_FEATURE_ORDER) →
      predict ⟨m, none, fo⟩ e =
        .serverError "KeyError: feature_order names a missing column") ∧
    ((∀ c ∈ fo, c ∈ DEFAULT_FEATURE_ORDER) →
      ∃ X, selectColumns (assembleRow e ce pe) fo = some X ∧
        predict ⟨m, none, fo⟩ e = .ok (m (X.map Prod.snd))) := by
  constructor
  · rintro ⟨c, hc, hcn⟩
    have hnone : selectColumns (assembleRow e ce pe) fo = none := by
      refine (selectColumns_eq_none_iff _ _).mpr ⟨c, hc, ?_⟩
      rw [lookup_eq_none_key, assembleRow_columns]
      exact hcn
    simp [predict, hce, hpe, runModel, hnone]
  · intro h
    cases hS : selectColumns (assembleRow e ce pe) fo with
    | none =>
        obtain ⟨c, hc, hnone⟩ := (selectColumns_eq_none_iff _ _).mp hS
        rw [lookup_eq_none_key, assembleRow_columns] at hnone
        exact absurd (h c hc) hnone
    | some X =>
        exact ⟨X, rfl, by simp [predict, hce, hpe, runModel, hS]⟩

/-- Witness for C5 amended: a one-column bogus order fails server-side,
and an eight-column suborder proceeds. -/
theorem feature_order_mismatch_amended_witness :
    ((∃ c ∈ ["bogus"], c ∉ DEFAULT_FEATURE_ORDER) →
      predict ⟨wModelOne, none, ["bogus"]⟩ codesRequest =
        .serverError "KeyError: feature_order names a missing column") ∧
    ((∀ c ∈ ["bogus"], c ∈ DEFAULT_FEATURE_ORDER) →
      ∃ X, selectColumns (assembleRow codesRequest 2 1) ["bogus"] = some X ∧
        predict ⟨wModelOne, none, ["bogus"]⟩ codesRequest =
          .ok (wModelOne (X.map Prod.snd))) :=
  feature_order_mismatch_amended wModelOne ["bogus"] codesRequest 2 1 rfl rfl

/-- C6: when the bundle carries encoders, the integer fields
`category_enc` and `priority_enc` of the request are ignored — changing
them to any values leaves the response unchanged. -/
theorem predict_ignores_enc_fields_with_encoders
    (m : Model) (encs : Encoders) (fo : List String) (e : ExpenseInput)
    (x y : Option Int) :
    predict ⟨m, some encs, fo⟩
        { e with category_enc := x, priority_enc := y } =
      predict ⟨m, some encs, fo⟩ e := by
  cases hc : e.category <;> cases hp : e.priority_flag <;>
    simp [predict, hc, hp, runModel, assembleRow]

/-- C7: the concrete spec scenario. For every model, the request with
income 5000 and 2000, expense 300, category Food, priority High, cutoff
0.3, total 1200, ratio 0.24 and risk 0, under encoders mapping Food to 2
and High to 1 and the default feature order, feeds the model exactly the
row 5000, 2000, 300, 2, 1, 0.3, 1200, 0.24, 0, and the response carries
the model output for that row as the integer recommend flag. -/
theorem predict_demo_scenario (m : Model) :
    predict ⟨m, some demoEncoders, DEFAULT_FEATURE_ORDER⟩ demoRequest =
      .ok (m [5000, 2000, 300, 2, 1, 3/10, 1200, 24/100, 0]) := by
  show Resp.ok (m [(5000 : Rat), 2000, 300, ((2 : Int) : Rat),
    ((1 : Int) : Rat), 3/10, 1200, 24/100, ((0 : Int) : Rat)]) = _
  norm_num

/-- C8: a non-mapping artifact is treated as the model itself, with no
encoders and the hard-coded default nine-column feature order; a mapping
without the feature_order key also gets the default order. -/
theorem loader_defaults :
    (∀ m : Model, interpretArtifact (.bare m) =
      (some m, none, DEFAULT_FEATURE_ORDER)) ∧
    (∀ d : LoadedBundleDict, d.feature_order = none →
      interpretArtifact (.dict d) =
        (d.model, d.encoders, DEFAULT_FEATURE_ORDER)) ∧
    DEFAULT_FEATURE_ORDER =
      ["income_x", "income_y", "expense_amount",
       "category_enc", "priority_enc", "cutoff_rate",
       "total_expenses", "expense_ratio", "risk_flag"] := by
  refine ⟨fun m => rfl, fun d hd => ?_, rfl⟩
  simp [interpretArtifact, hd]

/-- Witness for C8 at the empty mapping artifact. -/
theorem loader_defaults_witness :
    interpretArtifact (.dict ⟨none, none, none⟩) =
      (none, none, DEFAULT_FEATURE_ORDER) :=
  loader_defaults.2.1 ⟨none, none, none⟩ rfl

/-- C9: the currency field never influences inference — replacing it by
any value, or by absence, leaves the response unchanged. -/
theorem predict_ignores_currency
    (b : Bundle) (e : ExpenseInput) (c : Option String) :
    predict b { e with currency := c } = predict b e := by
  obtain ⟨m, encs, fo⟩ := b
  cases encs <;> cases hc : e.category <;> cases hp : e.priority_flag <;>
    cases hx : e.category_enc <;> cases hy : e.priority_enc <;>
    simp [predict, hc, hp, hx, hy, runModel, assembleRow]

/-- C10: with encoders present and both strings supplied, a bundle whose
encoders mapping lacks the key category or the key priority_flag makes
the request fail with a server-side error (the unhandled dict lookup),
never the 400 client error. -/
theorem predict_missing_encoder_key_server_error
    (m : Model) (encs : Encoders) (fo : List String) (e : ExpenseInput)
    (c p : String)
    (hc : e.category = some c) (hp : e.priority_flag = some p)
    (h : List.lookup "category" encs = none ∨
         List.lookup "priority_flag" encs = none) :
    (∃ msg, predict ⟨m, some encs, fo⟩ e = .serverError msg) ∧
    ∀ d, predict ⟨m, some encs, fo⟩ e ≠ .clientError d := by
  have hS : ∃ msg, predict ⟨m, some encs, fo⟩ e = .serverError msg := by
    rcases h with h1 | h1
    · exact ⟨"KeyError: category", by simp [predict, hc, hp, h1]⟩
    · cases hf : List.lookup "category" encs with
      | none => exact ⟨"KeyError: category", by simp [predict, hc, hp, hf]⟩
      | some f =>
          cases hfc : f c with
          | none =>
              exact ⟨"ValueError: unseen category label",
                by simp [predict, hc, hp, hf, hfc]⟩
          | some ce =>
              exact ⟨"KeyError: priority_flag",
                by simp [predict, hc, hp, hf, hfc, h1]⟩
  refine ⟨hS, ?_⟩
  obtain ⟨msg, hmsg⟩ := hS
  intro d
  rw [hmsg]
  simp

/-- Witness for C10 at an empty encoders mapping. -/
theorem predict_missing_encoder_key_server_error_witness :
    (∃ msg, predict ⟨wModelOne, some [], DEFAULT_FEATURE_ORDER⟩ demoRequest =
      .serverError msg) ∧
    ∀ d, predict ⟨wModelOne, some [], DEFAULT_FEATURE_ORDER⟩ demoRequest ≠
      .clientError d :=
  predict_missing_encoder_key_server_error wModelOne [] DEFAULT_FEATURE_ORDER
    demoRequest "Food" "High" rfl rfl (Or.inl rfl)
